import Mathlib

/-!
Verification of the Bloch-vector projection routine `plot_bloch_vector`
from `src/app.py` of the quantum-teleportation visual demo.

The function takes a two-amplitude state `(a, b)` and a title, computes
  theta = 2 * arccos |a|,  phi = arg b - arg a,
  x = sin theta * cos phi, y = sin theta * sin phi, z = cos theta,
and packages a plotly figure holding a 40 x 20 unit-sphere mesh plus a
red line segment from the origin to `(x, y, z)`, with fixed layout.

The embedding below mirrors the source over exact real arithmetic
(`Real.arccos`, `Complex.arg`, `Complex.abs` for `np.arccos`, `np.angle`,
`np.abs`), and models the plotly figure as a plain record of traces and
layout fields, one field per keyword argument of the source.
-/

namespace App

/-- `theta = 2 * np.arccos(np.abs(a))` (src/app.py line 20). -/
noncomputable def theta (a : ℂ) : ℝ :=
  2 * Real.arccos (Complex.abs a)

/-- `phi = np.angle(b) - np.angle(a)` (src/app.py line 21). -/
noncomputable def phi (a b : ℂ) : ℝ :=
  Complex.arg b - Complex.arg a

/-- `x = np.sin(theta) * np.cos(phi)` (src/app.py line 22). -/
noncomputable def x (a b : ℂ) : ℝ :=
  Real.sin (theta a) * Real.cos (phi a b)

/-- `y = np.sin(theta) * np.sin(phi)` (src/app.py line 23). -/
noncomputable def y (a b : ℂ) : ℝ :=
  Real.sin (theta a) * Real.sin (phi a b)

/-- `z = np.cos(theta)` (src/app.py line 24). -/
noncomputable def z (a : ℂ) : ℝ :=
  Real.cos (theta a)

/-- Line style of a plotly `Scatter3d` trace (`line=dict(color=..., width=...)`). -/
structure LineStyle where
  color : String
  width : ℝ

/-- Marker style of a plotly `Scatter3d` trace (`marker=dict(size=..., color=...)`). -/
structure MarkerStyle where
  size : ℝ
  color : String

/-- A plotly `Scatter3d` trace as used by the source: coordinate lists plus styling. -/
structure Scatter3dTrace where
  x : List ℝ
  y : List ℝ
  z : List ℝ
  mode : String
  line : LineStyle
  marker : MarkerStyle
  name : String

/-- A plotly surface trace over the 40 x 20 parameter grid produced by
`np.mgrid[0:2*np.pi:40j, 0:np.pi:20j]` (40 azimuth samples, 20 polar samples). -/
structure SurfaceTrace where
  xs : Fin 40 → Fin 20 → ℝ
  ys : Fin 40 → Fin 20 → ℝ
  zs : Fin 40 → Fin 20 → ℝ
  colorscale : String
  opacity : ℝ
  showscale : Bool

/-- A trace of the figure: either a surface or a 3d scatter. -/
inductive Trace where
  | surface : SurfaceTrace → Trace
  | scatter : Scatter3dTrace → Trace

/-- True exactly on surface traces. -/
def Trace.isSurface : Trace → Bool
  | Trace.surface _ => true
  | Trace.scatter _ => false

/-- True exactly on scatter traces. -/
def Trace.isScatter : Trace → Bool
  | Trace.surface _ => false
  | Trace.scatter _ => true

/-- One axis of the 3d scene layout (`xaxis=dict(title=..., range=[-1, 1])`). -/
structure Axis3d where
  title : String
  range : ℝ × ℝ

/-- The 3d scene part of the layout (src/app.py lines 43-48). -/
structure SceneLayout where
  xaxis : Axis3d
  yaxis : Axis3d
  zaxis : Axis3d
  aspectmode : String

/-- The figure margin (`margin=dict(l=0, r=0, t=30, b=0)`). -/
structure Margin where
  l : ℝ
  r : ℝ
  t : ℝ
  b : ℝ

/-- The figure layout set by `fig.update_layout` (src/app.py lines 40-50). -/
structure Layout where
  title : String
  width : ℝ
  height : ℝ
  scene : SceneLayout
  margin : Margin

/-- A plotly figure: an ordered list of traces and a layout. -/
structure Figure where
  traces : List Trace
  layout : Layout

/-- The static unit-sphere mesh (src/app.py lines 26-29, 32): over the grid
`u = 2*pi*i/39`, `v = pi*j/19`, `xs = cos u * sin v`, `ys = sin u * sin v`,
`zs = cos v`, drawn with `colorscale="Viridis"`, `opacity=0.3`, `showscale=False`. -/
noncomputable def sphereSurface : SurfaceTrace where
  xs := fun i j =>
    Real.cos (2 * Real.pi * (i.val : ℝ) / 39) * Real.sin (Real.pi * (j.val : ℝ) / 19)
  ys := fun i j =>
    Real.sin (2 * Real.pi * (i.val : ℝ) / 39) * Real.sin (Real.pi * (j.val : ℝ) / 19)
  zs := fun _ j => Real.cos (Real.pi * (j.val : ℝ) / 19)
  colorscale := "Viridis"
  opacity := 0.3
  showscale := false

/-- The Bloch-vector trace added by `fig.add_trace(go.Scatter3d(...))`
(src/app.py lines 33-39): a line from the origin to `(x, y, z)`. -/
noncomputable def vectorTrace (statevector : ℂ × ℂ) : Scatter3dTrace where
  x := [0, App.x statevector.1 statevector.2]
  y := [0, App.y statevector.1 statevector.2]
  z := [0, App.z statevector.1]
  mode := "lines+markers"
  line := { color := "red", width := 8 }
  marker := { size := 6, color := "red" }
  name := "Estado |ψ⟩"

/-- `plot_bloch_vector(statevector, title)` (src/app.py lines 18-51):
`a, b = statevector[0], statevector[1]`, then the sphere mesh and the
Bloch-vector line are packaged into a figure with the fixed layout. -/
noncomputable def plot_bloch_vector (statevector : ℂ × ℂ) (title : String) : Figure where
  traces := [Trace.surface sphereSurface, Trace.scatter (vectorTrace statevector)]
  layout :=
    { title := title
      width := 450
      height := 450
      scene :=
        { xaxis := { title := "X", range := (-1, 1) }
          yaxis := { title := "Y", range := (-1, 1) }
          zaxis := { title := "Z", range := (-1, 1) }
          aspectmode := "cube" }
      margin := { l := 0, r := 0, t := 30, b := 0 } }

/-- `beta = np.sqrt(1 - alpha**2) * np.exp(1j * phase)` (src/app.py line 58):
the slider-side construction of the second amplitude. -/
noncomputable def beta (alpha phase : ℝ) : ℂ :=
  (Real.sqrt (1 - alpha ^ 2) : ℂ) * Complex.exp (Complex.I * phase)

end App

/-- The projected point is always on the unit sphere: `x`, `y`, `z` are sines
and cosines of the two angles `theta` and `phi`, so their squares sum to 1
for every input, normalized or not. -/
theorem bloch_on_sphere (a b : ℂ) :
    App.x a b ^ 2 + App.y a b ^ 2 + App.z a ^ 2 = 1 := by
  unfold App.x App.y App.z
  have hphi := Real.sin_sq_add_cos_sq (App.phi a b)
  have htheta := Real.sin_sq_add_cos_sq (App.theta a)
  nlinarith [hphi, htheta]

/-- C2: for every normalized input state `(a, b)` with `|a|^2 + |b|^2 = 1`,
the vector `(x, y, z)` produced by `plot_bloch_vector` satisfies
`x^2 + y^2 + z^2 = 1`, i.e. it lies on the unit sphere. -/
theorem C2_unit_sphere_invariant (a b : ℂ)
    (h : Complex.abs a ^ 2 + Complex.abs b ^ 2 = 1) :
    App.x a b ^ 2 + App.y a b ^ 2 + App.z a ^ 2 = 1 :=
  bloch_on_sphere a b

/-- Witness for C2 at the normalized state `(1, 0)`. -/
theorem C2_unit_sphere_invariant_witness :
    App.x 1 0 ^ 2 + App.y 1 0 ^ 2 + App.z 1 ^ 2 = 1 :=
  C2_unit_sphere_invariant 1 0 (by simp)

/-- C1: for every input state `(a, b)` with `|a|` in `[0, 1]`,
`plot_bloch_vector` computes the Bloch vector by the exact formulas
`theta = 2 * arccos |a|`, `phi = arg b - arg a`,
`x = sin theta * cos phi`, `y = sin theta * sin phi`, `z = cos theta`. -/
theorem C1_projection_formulas (a b : ℂ) (t : String)
    (h0 : 0 ≤ Complex.abs a) (h1 : Complex.abs a ≤ 1) :
    (App.plot_bloch_vector (a, b) t).traces =
      [App.Trace.surface App.sphereSurface,
       App.Trace.scatter
         { x := [0, Real.sin (2 * Real.arccos (Complex.abs a)) *
                    Real.cos (Complex.arg b - Complex.arg a)]
           y := [0, Real.sin (2 * Real.arccos (Complex.abs a)) *
                    Real.sin (Complex.arg b - Complex.arg a)]
           z := [0, Real.cos (2 * Real.arccos (Complex.abs a))]
           mode := "lines+markers"
           line := { color := "red", width := 8 }
           marker := { size := 6, color := "red" }
           name := "Estado |ψ⟩" }] := rfl

/-- Witness for C1 at the state `(1, 0)` with empty title. -/
theorem C1_projection_formulas_witness :
    (App.plot_bloch_vector (1, 0) "").traces =
      [App.Trace.surface App.sphereSurface,
       App.Trace.scatter
         { x := [0, Real.sin (2 * Real.arccos (Complex.abs 1)) *
                    Real.cos (Complex.arg 0 - Complex.arg 1)]
           y := [0, Real.sin (2 * Real.arccos (Complex.abs 1)) *
                    Real.sin (Complex.arg 0 - Complex.arg 1)]
           z := [0, Real.cos (2 * Real.arccos (Complex.abs 1))]
           mode := "lines+markers"
           line := { color := "red", width := 8 }
           marker := { size := 6, color := "red" }
           name := "Estado |ψ⟩" }] :=
  C1_projection_formulas 1 0 "" (Complex.abs.nonneg 1) (by simp)

/-- The polar-angle helper fact `arccos (1 / sqrt 2) = pi / 4`. -/
theorem arccos_one_div_sqrt_two : Real.arccos (1 / Real.sqrt 2) = Real.pi / 4 := by
  have h2 : Real.sqrt 2 ≠ 0 := by positivity
  have h : (1 / Real.sqrt 2 : ℝ) = Real.sqrt 2 / 2 := by
    field_simp
  rw [h, ← Real.cos_pi_div_four]
  exact Real.arccos_cos (by positivity) (by linarith [Real.pi_pos])

/-- C3: `plot_bloch_vector` maps the canonical states to the stated axis
points: `(1, 0)` to `(0,0,1)`, `(0, 1)` to `(0,0,-1)`,
`(1/sqrt 2, 1/sqrt 2)` to `(1,0,0)`, and `(1/sqrt 2, i/sqrt 2)` to `(0,1,0)`. -/
theorem C3_canonical_states :
    (App.x 1 0 = 0 ∧ App.y 1 0 = 0 ∧ App.z 1 = 1) ∧
    (App.x 0 1 = 0 ∧ App.y 0 1 = 0 ∧ App.z 0 = -1) ∧
    (App.x ((1 / Real.sqrt 2 : ℝ) : ℂ) ((1 / Real.sqrt 2 : ℝ) : ℂ) = 1 ∧
     App.y ((1 / Real.sqrt 2 : ℝ) : ℂ) ((1 / Real.sqrt 2 : ℝ) : ℂ) = 0 ∧
     App.z ((1 / Real.sqrt 2 : ℝ) : ℂ) = 0) ∧
    (App.x ((1 / Real.sqrt 2 : ℝ) : ℂ) (((1 / Real.sqrt 2 : ℝ) : ℂ) * Complex.I) = 0 ∧
     App.y ((1 / Real.sqrt 2 : ℝ) : ℂ) (((1 / Real.sqrt 2 : ℝ) : ℂ) * Complex.I) = 1 ∧
     App.z ((1 / Real.sqrt 2 : ℝ) : ℂ) = 0) := by
  have habs : Complex.abs ((1 / Real.sqrt 2 : ℝ) : ℂ) = 1 / Real.sqrt 2 := by
    rw [Complex.abs_ofReal, abs_of_nonneg (by positivity)]
  have htheta : App.theta ((1 / Real.sqrt 2 : ℝ) : ℂ) = Real.pi / 2 := by
    simp only [App.theta, habs, arccos_one_div_sqrt_two]
    ring
  have harg0 : Complex.arg ((1 / Real.sqrt 2 : ℝ) : ℂ) = 0 :=
    Complex.arg_ofReal_of_nonneg (by positivity)
  have hargI : Complex.arg (((1 / Real.sqrt 2 : ℝ) : ℂ) * Complex.I) = Real.pi / 2 := by
    rw [Complex.arg_real_mul Complex.I (by positivity : (0:ℝ) < 1 / Real.sqrt 2),
      Complex.arg_I]
  have hpi : (2 : ℝ) * (Real.pi / 2) = Real.pi := by ring
  refine ⟨⟨?_, ?_, ?_⟩, ⟨?_, ?_, ?_⟩, ⟨?_, ?_, ?_⟩, ⟨?_, ?_, ?_⟩⟩
  · simp [App.x, App.theta, App.phi, Real.arccos_one]
  · simp [App.y, App.theta, App.phi, Real.arccos_one]
  · simp [App.z, App.theta, Real.arccos_one]
  · simp [App.x, App.theta, Real.arccos_zero, hpi, Real.sin_pi]
  · simp [App.y, App.theta, Real.arccos_zero, hpi, Real.sin_pi]
  · simp [App.z, App.theta, Real.arccos_zero, hpi, Real.cos_pi]
  · simp only [App.x, App.phi]
    rw [htheta, harg0]
    simp [Real.sin_pi_div_two]
  · simp only [App.y, App.phi]
    rw [htheta, harg0]
    simp
  · simp only [App.z]
    rw [htheta]
    exact Real.cos_pi_div_two
  · simp only [App.x, App.phi]
    rw [htheta, harg0, hargI]
    simp [Real.cos_pi_div_two]
  · simp only [App.y, App.phi]
    rw [htheta, harg0, hargI]
    simp [Real.sin_pi_div_two]
  · simp only [App.z]
    rw [htheta]
    exact Real.cos_pi_div_two

/-- C4 counterexample: at the unnormalized state `(0, 0)` (norm 0, not 1) the
output vector still satisfies `x^2 + y^2 + z^2 = 1` exactly, so the claimed
off-unit-sphere propagation does not occur. -/
theorem C4_counterexample :
    Complex.abs 0 ^ 2 + Complex.abs 0 ^ 2 ≠ 1 ∧
    App.x 0 0 ^ 2 + App.y 0 0 ^ 2 + App.z 0 ^ 2 = 1 :=
  ⟨by simp, bloch_on_sphere 0 0⟩

/-- C4 (amended): an unnormalized input state with `|a| <= 1` (the region
where `Real.arccos` agrees with the source's `np.arccos`; for `|a| > 1` the
source degrades to NaN instead) is not detected and no error is raised - the
figure is assembled exactly as for normalized input - but the resulting
vector still lies on the unit sphere in exact real arithmetic, rather than
propagating as an off-unit-sphere output. -/
theorem C4_amended_silent_projection (a b : ℂ) (t : String)
    (hne : Complex.abs a ^ 2 + Complex.abs b ^ 2 ≠ 1)
    (ha : Complex.abs a ≤ 1) :
    (App.plot_bloch_vector (a, b) t).traces =
      [App.Trace.surface App.sphereSurface,
       App.Trace.scatter (App.vectorTrace (a, b))] ∧
    App.x a b ^ 2 + App.y a b ^ 2 + App.z a ^ 2 = 1 :=
  ⟨rfl, bloch_on_sphere a b⟩

/-- Witness for the amended C4 at the unnormalized state `(0, 0)`. -/
theorem C4_amended_silent_projection_witness :
    (App.plot_bloch_vector (0, 0) "").traces =
      [App.Trace.surface App.sphereSurface,
       App.Trace.scatter (App.vectorTrace (0, 0))] ∧
    App.x 0 0 ^ 2 + App.y 0 0 ^ 2 + App.z 0 ^ 2 = 1 :=
  C4_amended_silent_projection 0 0 "" (by simp) (by simp)

/-- C5: for any two input states with the same `|a|` and arbitrary second
amplitudes (hence arbitrary `arg b`), the z coordinate of the plotted Bloch
vector is identical: z depends only on `|a|`, not on the phase of `b`. -/
theorem C5_z_phase_noninterference (a a' b b' : ℂ)
    (h : Complex.abs a = Complex.abs a') :
    (App.vectorTrace (a, b)).z = (App.vectorTrace (a', b')).z := by
  show [0, App.z a] = [0, App.z a']
  simp only [App.z, App.theta, h]

/-- Witness for C5: states `(1, 0)` and `(1, i)` share the same z list. -/
theorem C5_z_phase_noninterference_witness :
    (App.vectorTrace (1, 0)).z = (App.vectorTrace (1, Complex.I)).z :=
  C5_z_phase_noninterference 1 1 0 Complex.I rfl

/-- C6: for every `alpha` in `[0, 1]` and every phase, the slider-side state
`(alpha, beta)` with `beta = sqrt(1 - alpha^2) * exp(i * phase)` is
normalized: `alpha^2 + |beta|^2 = 1`. -/
theorem C6_slider_state_normalized (alpha phase : ℝ)
    (h0 : 0 ≤ alpha) (h1 : alpha ≤ 1) :
    alpha ^ 2 + Complex.abs (App.beta alpha phase) ^ 2 = 1 := by
  have hsq : (0:ℝ) ≤ 1 - alpha ^ 2 := by nlinarith
  have habs : Complex.abs (App.beta alpha phase) = Real.sqrt (1 - alpha ^ 2) := by
    simp only [App.beta, map_mul, Complex.abs_ofReal, Complex.abs_exp]
    have hre : (Complex.I * (phase : ℂ)).re = 0 := by simp
    rw [hre, Real.exp_zero, mul_one, abs_of_nonneg (Real.sqrt_nonneg _)]
  rw [habs, Real.sq_sqrt hsq]
  ring

/-- Witness for C6 at `alpha = 1`, `phase = 0`. -/
theorem C6_slider_state_normalized_witness :
    (1:ℝ) ^ 2 + Complex.abs (App.beta 1 0) ^ 2 = 1 :=
  C6_slider_state_normalized 1 0 (by norm_num) (by norm_num)

/-- C7: for every input, the figure contains exactly one sphere surface and
exactly one scatter (vector line) trace; the line runs from the origin
`(0,0,0)` to `(x, y, z)`; all three axis ranges are `[-1, 1]` and the aspect
mode is cube. -/
theorem C7_scene_shape (a b : ℂ) (t : String) :
    ((App.plot_bloch_vector (a, b) t).traces.countP App.Trace.isSurface = 1) ∧
    ((App.plot_bloch_vector (a, b) t).traces.countP App.Trace.isScatter = 1) ∧
    (App.plot_bloch_vector (a, b) t).traces =
      [App.Trace.surface App.sphereSurface,
       App.Trace.scatter (App.vectorTrace (a, b))] ∧
    (App.vectorTrace (a, b)).x = [0, App.x a b] ∧
    (App.vectorTrace (a, b)).y = [0, App.y a b] ∧
    (App.vectorTrace (a, b)).z = [0, App.z a] ∧
    (App.plot_bloch_vector (a, b) t).layout.scene.xaxis.range = (-1, 1) ∧
    (App.plot_bloch_vector (a, b) t).layout.scene.yaxis.range = (-1, 1) ∧
    (App.plot_bloch_vector (a, b) t).layout.scene.zaxis.range = (-1, 1) ∧
    (App.plot_bloch_vector (a, b) t).layout.scene.aspectmode = "cube" :=
  ⟨rfl, rfl, rfl, rfl, rfl, rfl, rfl, rfl, rfl, rfl⟩

/-- C8: `plot_bloch_vector` is deterministic - two calls with equal input
state and title produce equal output figures; no hidden state is read. -/
theorem C8_deterministic (sv sv' : ℂ × ℂ) (t t' : String)
    (hsv : sv = sv') (ht : t = t') :
    App.plot_bloch_vector sv t = App.plot_bloch_vector sv' t' := by
  rw [hsv, ht]

/-- Witness for C8 at the state `(1, 0)` with empty title. -/
theorem C8_deterministic_witness :
    App.plot_bloch_vector (1, 0) "" = App.plot_bloch_vector (1, 0) "" :=
  C8_deterministic (1, 0) (1, 0) "" "" rfl rfl

/-- C9: for every input `(a, b)` with `|a| <= 1` - normalized or not,
including `b = 0` - the vector produced by `plot_bloch_vector` satisfies
`x^2 + y^2 + z^2 = 1` in exact real arithmetic. -/
theorem C9_always_on_unit_sphere (a b : ℂ) (h : Complex.abs a ≤ 1) :
    App.x a b ^ 2 + App.y a b ^ 2 + App.z a ^ 2 = 1 :=
  bloch_on_sphere a b

/-- Witness for C9 at the degenerate state `(0, 0)`. -/
theorem C9_always_on_unit_sphere_witness :
    App.x 0 0 ^ 2 + App.y 0 0 ^ 2 + App.z 0 ^ 2 = 1 :=
  C9_always_on_unit_sphere 0 0 (by simp)

/-- C10: the geometry of the figure (all traces: the Bloch vector and the
40 x 20 sphere mesh) does not depend on the title; the title affects only the
layout's title field. -/
theorem C10_title_noninterference (sv : ℂ × ℂ) (t1 t2 : String) :
    (App.plot_bloch_vector sv t1).traces = (App.plot_bloch_vector sv t2).traces ∧
    { (App.plot_bloch_vector sv t1).layout with title := t2 } =
      (App.plot_bloch_vector sv t2).layout ∧
    (App.plot_bloch_vector sv t1).layout.title = t1 :=
  ⟨rfl, rfl, rfl⟩
